import Mathlib

/-!
# Verification of the Theelja Store cart/session/order lifecycle

A shallow embedding of the cart, session and checkout pipeline of
`server.py` (Hichem95/theeljastore), together with proofs about the
spec's claims on that lifecycle.

Conventions of the embedding:
* Python `str` is Lean `String`; `.strip()` is modelled by `strip`.
* Python `float` prices are modelled as `ℚ`: no claim proved here
  depends on floating-point rounding, only on which stored value flows
  where, so exact arithmetic is a faithful abstraction of the data flow.
* The SQLite `product` table is a lookup function `Catalog`.
* The mutable per-visitor session dict is the structure `Session`
  (absent dict keys become `Option` fields / the empty cart).
* The orders / order_items tables and the `orders.csv` file are the
  structure `Store`; an append models an `INSERT` / `writerow`.
-/

namespace Theelja

/-- Whitespace characters removed by Python's `str.strip()` (the ASCII
ones; the concrete inputs used in this development contain no exotic
Unicode whitespace). -/
def isSpaceChar (c : Char) : Bool :=
  c = ' ' || c = '\t' || c = '\n' || c = '\r' || c = '\x0b' || c = '\x0c'

/-- Python `s.strip()`: drop leading and trailing whitespace. -/
def strip (s : String) : String :=
  String.mk (((s.data.dropWhile isSpaceChar).reverse.dropWhile isSpaceChar).reverse)

/-- The decoded form body: an ordered list of key/value pairs, as
produced by `urllib.parse.parse_qs` (which groups values per key in
order of appearance). -/
abbrev Params := List (String × String)

/-- `params.get(key, [''])[0]`: the first value supplied for `key`, or
`""` when the key is absent. -/
def getParam (ps : Params) (key : String) : String :=
  match ps.find? (fun kv => kv.1 = key) with
  | some kv => kv.2
  | none => ""

/-- One cart entry: `{'product_id': ..., 'quantity': ...}`. -/
structure CartLine where
  product_id : Int
  quantity : Int
deriving DecidableEq, Repr

/-- `session['cart']`, an ordered list of lines. -/
abbrev Cart := List CartLine

/-- `handle_add_to_cart`'s cart mutation: scan for an existing line for
`pid` and increment its quantity, else append a fresh line with
quantity 1 (the `for ... else` loop at server.py:1066-1072). -/
def addToCart : Cart → Int → Cart
  | [], pid => [⟨pid, 1⟩]
  | line :: rest, pid =>
    if line.product_id = pid then
      { line with quantity := line.quantity + 1 } :: rest
    else
      line :: addToCart rest pid

/-- `n` successive `add(p)` calls. -/
def addN (cart : Cart) (pid : Int) : Nat → Cart
  | 0 => cart
  | n + 1 => addToCart (addN cart pid n) pid

/-- The `action` form parameter of `handle_update_cart`. -/
inductive CartAction where
  | increase
  | decrease
  | remove
deriving DecidableEq, Repr

/-- `handle_update_cart`'s cart mutation (server.py:1260-1271): act on
the first line matching `pid` and stop; a missing `pid` changes
nothing. `decrease` removes the line when the decremented quantity is
`≤ 0`; `remove` deletes it unconditionally. -/
def updateCart : Cart → Int → CartAction → Cart
  | [], _, _ => []
  | line :: rest, pid, act =>
    if line.product_id = pid then
      match act with
      | .increase => { line with quantity := line.quantity + 1 } :: rest
      | .decrease =>
        if line.quantity - 1 ≤ 0 then rest
        else { line with quantity := line.quantity - 1 } :: rest
      | .remove => rest
    else
      line :: updateCart rest pid act

/-- A row of the `product` table (the fields the lifecycle reads). -/
structure Product where
  name_fr : String
  price : ℚ
deriving DecidableEq, Repr

/-- `SELECT ... FROM product WHERE id = ?`: the catalog lookup. -/
abbrev Catalog := Int → Option Product

/-- The running total of `render_cart` / `render_checkout`: sum of
`price * quantity` over the cart, skipping lines whose product id does
not resolve in the catalog. -/
def cartTotal (db : Catalog) (cart : Cart) : ℚ :=
  cart.foldl
    (fun acc item =>
      match db item.product_id with
      | some p => acc + p.price * (item.quantity : ℚ)
      | none => acc)
    0

/-- The per-visitor session record. An absent `'cart'` key is the
empty list; absent `'checkout_total'` / `'last_order_total'` keys are
`none` (Python reads them with `.get(key, 0.0)`). -/
structure Session where
  lang : String
  cart : Cart
  checkout_total : Option ℚ
  last_order_total : Option ℚ
deriving DecidableEq, Repr

/-- The session effect of GET `/checkout` (`render_checkout`,
server.py:1283-1323): with an empty cart it redirects to `/cart` and
touches nothing; otherwise it computes the summary total from the
catalog and stores it as `session['checkout_total']`. -/
def renderCheckout (db : Catalog) (s : Session) : Session :=
  if s.cart = [] then s
  else { s with checkout_total := some (cartTotal db s.cart) }

/-- A row of the `orders` table (column order of the INSERT at
server.py:1412-1415). -/
structure Order where
  customer_name : String
  customer_address : String
  card_number : String
  total : ℚ
  customer_phone : String
  payment_method : String
  customer_email : String
deriving DecidableEq, Repr

/-- A row of the `order_items` table. -/
structure OrderItem where
  order_id : Nat
  product_id : Int
  quantity : Int
  price : ℚ
deriving DecidableEq, Repr

/-- One data row of `orders.csv` (server.py:1455-1465). The timestamp
is received as an opaque string; the formatted total is kept as the
exact value. -/
structure CsvRow where
  timestamp : String
  name : String
  email : String
  phone : String
  address : String
  payment_method : String
  card_number : String
  items : String
  total : ℚ
deriving DecidableEq, Repr

/-- The persistent state: orders, order_items, and the CSV audit file.
A row's implicit SQLite rowid is its 1-based position in the list. -/
structure Store where
  orders : List Order
  order_items : List OrderItem
  csv : List CsvRow
deriving DecidableEq, Repr

/-- The six form fields `handle_checkout_post` extracts (each already
`.strip()`ped, server.py:1390-1397). -/
structure CheckoutForm where
  name : String
  email : String
  phone : String
  address : String
  payment_method : String
  card_number : String
deriving DecidableEq, Repr

/-- Extraction of the checkout form from the POST body:
`params.get(k, [''])[0].strip()` for each of the six keys. -/
def parseCheckoutForm (ps : Params) : CheckoutForm where
  name := strip (getParam ps "name")
  email := strip (getParam ps "email")
  phone := strip (getParam ps "phone")
  address := strip (getParam ps "address")
  payment_method := strip (getParam ps "payment_method")
  card_number := strip (getParam ps "card_number")

/-- The terminal outcome of one checkout submission:
`send_error(400, 'Missing required fields')`,
`send_error(400, 'Cart is empty')`, or the 303 redirect to the
confirmation page. -/
inductive CheckoutStatus where
  | validationError
  | emptyCartError
  | confirmed
deriving DecidableEq, Repr

/-- Result of a checkout submission: the response plus the session and
persistent state after the request. -/
structure CheckoutOutcome where
  result : CheckoutStatus
  session : Session
  store : Store
deriving DecidableEq, Repr

/-- The order header the INSERT persists: the card number column is
written only when the payment method is `'card'`, else `''`. -/
def mkOrder (f : CheckoutForm) (total : ℚ) : Order where
  customer_name := f.name
  customer_address := f.address
  card_number := if f.payment_method = "card" then f.card_number else ""
  total := total
  customer_phone := f.phone
  payment_method := f.payment_method
  customer_email := f.email

/-- One `order_items` INSERT for a cart line, or `none` when the
product id does not resolve (the `continue` at server.py:1424). -/
def orderItemOf (db : Catalog) (order_id : Nat) (item : CartLine) : Option OrderItem :=
  match db item.product_id with
  | some p => some ⟨order_id, item.product_id, item.quantity, p.price⟩
  | none => none

/-- One entry of the CSV items description: `"{name_fr} x {qty}"`, with
the `f'ID{product_id}'` fallback for an unresolvable product. -/
def itemDesc (db : Catalog) (item : CartLine) : String :=
  (match db item.product_id with
   | some p => p.name_fr
   | none => "ID" ++ toString item.product_id) ++ " x " ++ toString item.quantity

/-- `'; '.join(item_descriptions)`. -/
def itemsStr (db : Catalog) (cart : Cart) : String :=
  String.intercalate "; " (cart.map (itemDesc db))

/-- The CSV audit row appended after persistence: note the card number
column holds the raw form value when paying by card. -/
def mkCsvRow (db : Catalog) (now : String) (f : CheckoutForm) (cart : Cart)
    (total : ℚ) : CsvRow where
  timestamp := now
  name := f.name
  email := f.email
  phone := f.phone
  address := f.address
  payment_method := f.payment_method
  card_number := if f.payment_method = "card" then f.card_number else ""
  items := itemsStr db cart
  total := total

/-- The core of `handle_checkout_post` (server.py:1382-1496), after
form extraction: validate the four required fields, reject an empty
cart, then persist the order header, one item row per resolvable cart
line, and the CSV row; finally clear the cart and remember the total.
The error paths return before any write. -/
def processCheckout (db : Catalog) (now : String) (s : Session) (st : Store)
    (f : CheckoutForm) : CheckoutOutcome :=
  if f.name = "" ∨ f.phone = "" ∨ f.address = "" ∨ f.payment_method = "" then
    ⟨.validationError, s, st⟩
  else
    let total_amount : ℚ := s.checkout_total.getD 0
    if s.cart = [] then
      ⟨.emptyCartError, s, st⟩
    else
      let order_id := st.orders.length + 1
      { result := .confirmed
        session :=
          { s with
            cart := []
            checkout_total := some 0
            last_order_total := some total_amount }
        store :=
          { orders := st.orders ++ [mkOrder f total_amount]
            order_items := st.order_items ++ s.cart.filterMap (orderItemOf db order_id)
            csv := st.csv ++ [mkCsvRow db now f s.cart total_amount] } }

/-- POST `/checkout`: extract the form from the body, then process. -/
def handleCheckoutPost (db : Catalog) (now : String) (s : Session) (st : Store)
    (ps : Params) : CheckoutOutcome :=
  processCheckout db now s st (parseCheckoutForm ps)

/-- Two POST bodies agree on every field `handle_checkout_post` reads. -/
def paramsAgree (ps ps' : Params) : Prop :=
  ∀ k ∈ ["name", "email", "phone", "address", "payment_method", "card_number"],
    getParam ps k = getParam ps' k

instance (ps ps' : Params) : Decidable (paramsAgree ps ps') := by
  unfold paramsAgree; infer_instance

/-- The masking in `send_order_email` (server.py:1605):
`'*' * (len(card) - 4) + card[-4:] if card else ''`. Natural-number
subtraction models Python's `'*' * n = ''` for negative `n`, and
`card[-4:]` is the last `min 4 len` characters. -/
def maskCard (card : String) : String :=
  if card = "" then ""
  else
    String.mk
      (List.replicate (card.length - 4) '*' ++ card.data.drop (card.length - 4))

/-- A logged rendering of a card reference leaves at most its last
four characters readable: every character before the last four is the
mask character `'*'`. -/
def hidesAllButLastFour (s : String) : Bool :=
  (s.data.take (s.data.length - 4)).all (fun c => c = '*')

/-- The payment paragraph of the confirmation email body
(server.py:1602-1608): the card reference appears only in masked form,
and only for card payments. -/
def emailPaymentInfo (payment_method card_number : String) : String :=
  "\nPayment method: " ++ payment_method ++ "\n" ++
    (if payment_method = "card" then "Card: " ++ maskCard card_number ++ "\n"
     else "Payable on delivery\n")

/-! ## Concrete fixtures used to instantiate the theorems -/

/-- A one-product catalog: product 1 is a 15 TND pizza. -/
def dbW : Catalog := fun i => if i = 1 then some ⟨"Pizza", 15⟩ else none

/-- A catalog in which no product id resolves (e.g. after products were
deleted). -/
def dbNoneW : Catalog := fun _ => none

/-- An empty persistent store. -/
def stW : Store := ⟨[], [], []⟩

/-- A fresh session with an empty cart. -/
def sEmptyW : Session := ⟨"fr", [], none, none⟩

/-- A session holding two pizzas, before any Review step ran. -/
def sNoTotalW : Session := ⟨"fr", [⟨1, 2⟩], none, none⟩

/-- A session holding two pizzas whose Review step stored total 30. -/
def sCashTotalW : Session := ⟨"fr", [⟨1, 2⟩], some 30, none⟩

/-- A session whose single cart line references a product id absent
from the catalog, with a stored review total. -/
def sGhostW : Session := ⟨"fr", [⟨99, 1⟩], some 5, none⟩

/-- A valid cash submission that nevertheless supplies a card number. -/
def psCashW : Params :=
  [("name", "A"), ("phone", "123"), ("address", "X"),
   ("payment_method", "cash"), ("card_number", "4539148803436467")]

/-- A valid card submission with a 16-character card number. -/
def psCardW : Params :=
  [("name", "A"), ("phone", "123"), ("address", "X"),
   ("payment_method", "card"), ("card_number", "4539148803436467")]

/-- A submission whose phone is blank after trimming. -/
def psBlankPhoneW : Params :=
  [("name", "A"), ("phone", "   "), ("address", "X"),
   ("payment_method", "cash")]

/-! ## Cart lemmas -/

lemma addToCart_map_product_id (cart : Cart) (p : Int) :
    (addToCart cart p).map CartLine.product_id =
      if p ∈ cart.map CartLine.product_id then cart.map CartLine.product_id
      else cart.map CartLine.product_id ++ [p] := by
  induction cart with
  | nil => simp [addToCart]
  | cons line rest ih =>
    by_cases h : line.product_id = p
    · subst h
      simp [addToCart]
    · by_cases hm : p ∈ rest.map CartLine.product_id <;>
        simp [addToCart, h, ih, hm, Ne.symm h]

lemma addToCart_absent (cart : Cart) (p : Int)
    (h : p ∉ cart.map CartLine.product_id) :
    addToCart cart p = cart ++ [⟨p, 1⟩] := by
  induction cart with
  | nil => simp [addToCart]
  | cons line rest ih =>
    simp only [List.map_cons, List.mem_cons, not_or] at h
    simp [addToCart, Ne.symm h.1, ih h.2]

lemma addToCart_append_same (cart : Cart) (p q : Int)
    (h : p ∉ cart.map CartLine.product_id) :
    addToCart (cart ++ [⟨p, q⟩]) p = cart ++ [⟨p, q + 1⟩] := by
  induction cart with
  | nil => simp [addToCart]
  | cons line rest ih =>
    simp only [List.map_cons, List.mem_cons, not_or] at h
    simp [addToCart, Ne.symm h.1, ih h.2]

lemma addN_absent (cart : Cart) (p : Int)
    (h : p ∉ cart.map CartLine.product_id) :
    ∀ n : Nat, addN cart p (n + 1) = cart ++ [⟨p, (n : Int) + 1⟩] := by
  intro n
  induction n with
  | zero => simpa [addN] using addToCart_absent cart p h
  | succ m ih =>
    show addToCart (addN cart p (m + 1)) p = _
    rw [ih, addToCart_append_same cart p _ h]
    push_cast
    ring_nf

lemma addN_map_product_id (cart : Cart) (p : Int) :
    ∀ n : Nat, 0 < n →
      (addN cart p n).map CartLine.product_id =
        if p ∈ cart.map CartLine.product_id then cart.map CartLine.product_id
        else cart.map CartLine.product_id ++ [p] := by
  intro n
  induction n with
  | zero => omega
  | succ m ih =>
    intro _
    rcases Nat.eq_zero_or_pos m with hm | hm
    · subst hm
      simpa [addN] using addToCart_map_product_id cart p
    · show (addToCart (addN cart p m) p).map CartLine.product_id = _
      rw [addToCart_map_product_id, ih hm]
      by_cases hmem : p ∈ cart.map CartLine.product_id <;> simp [hmem]

lemma updateCart_absent (cart : Cart) (p : Int) (act : CartAction)
    (h : p ∉ cart.map CartLine.product_id) : updateCart cart p act = cart := by
  induction cart with
  | nil => rfl
  | cons line rest ih =>
    simp only [List.map_cons, List.mem_cons, not_or] at h
    simp [updateCart, Ne.symm h.1, ih h.2]

lemma updateCart_increase (c1 c2 : Cart) (p q : Int)
    (h : p ∉ c1.map CartLine.product_id) :
    updateCart (c1 ++ ⟨p, q⟩ :: c2) p .increase = c1 ++ ⟨p, q + 1⟩ :: c2 := by
  induction c1 with
  | nil => simp [updateCart]
  | cons line rest ih =>
    simp only [List.map_cons, List.mem_cons, not_or] at h
    simp [updateCart, Ne.symm h.1, ih h.2]

lemma updateCart_decrease (c1 c2 : Cart) (p q : Int)
    (h : p ∉ c1.map CartLine.product_id) :
    updateCart (c1 ++ ⟨p, q⟩ :: c2) p .decrease =
      if q - 1 ≤ 0 then c1 ++ c2 else c1 ++ ⟨p, q - 1⟩ :: c2 := by
  induction c1 with
  | nil =>
    by_cases hq : q - 1 ≤ 0 <;> simp [updateCart, hq]
  | cons line rest ih =>
    simp only [List.map_cons, List.mem_cons, not_or] at h
    have hstep : updateCart ((line :: rest) ++ ⟨p, q⟩ :: c2) p .decrease
        = line :: updateCart (rest ++ ⟨p, q⟩ :: c2) p .decrease := by
      simp [updateCart, Ne.symm h.1]
    rw [hstep, ih h.2]
    by_cases hq : q - 1 ≤ 0 <;> simp [hq]

lemma updateCart_remove (c1 c2 : Cart) (p q : Int)
    (h : p ∉ c1.map CartLine.product_id) :
    updateCart (c1 ++ ⟨p, q⟩ :: c2) p .remove = c1 ++ c2 := by
  induction c1 with
  | nil => simp [updateCart]
  | cons line rest ih =>
    simp only [List.map_cons, List.mem_cons, not_or] at h
    simp [updateCart, Ne.symm h.1, ih h.2]

/-! ## Claims about the cart operations -/

/-- C7: starting from any cart whose lines have pairwise distinct
product ids, a sequence of `n ≥ 1` `add(p)` calls leaves exactly one
line for `p`, the no-duplicate-lines invariant is preserved, and if
`p` was absent initially the new line's quantity is `n`. -/
theorem claim_C7_add_merges_lines (cart : Cart) (p : Int) (n : Nat)
    (hnd : (cart.map CartLine.product_id).Nodup) (hn : 0 < n) :
    ((addN cart p n).map CartLine.product_id).Nodup
    ∧ ((addN cart p n).map CartLine.product_id).count p = 1
    ∧ (p ∉ cart.map CartLine.product_id → addN cart p n = cart ++ [⟨p, (n : Int)⟩]) := by
  have hmap := addN_map_product_id cart p n hn
  refine ⟨?_, ?_, ?_⟩
  · rw [hmap]
    split
    · exact hnd
    · next hm => simp [List.nodup_append, hnd, hm]
  · rw [hmap]
    split
    · next hm => exact List.count_eq_one_of_mem hnd hm
    · next hm => simp [List.count_append, List.count_eq_zero_of_not_mem hm]
  · intro hm
    obtain ⟨m, rfl⟩ : ∃ m, n = m + 1 := ⟨n - 1, by omega⟩
    rw [addN_absent cart p hm m]
    push_cast
    ring_nf

/-- Witness for C7 at a concrete input: three adds of product 7 to a
cart already holding product 3. -/
theorem claim_C7_add_merges_lines_witness :
    ((addN [⟨3, 2⟩] 7 3).map CartLine.product_id).Nodup
    ∧ ((addN [⟨3, 2⟩] 7 3).map CartLine.product_id).count 7 = 1
    ∧ (7 ∉ ([⟨3, 2⟩] : Cart).map CartLine.product_id →
        addN [⟨3, 2⟩] 7 3 = [⟨3, 2⟩] ++ [⟨7, (3 : Int)⟩]) :=
  claim_C7_add_merges_lines [⟨3, 2⟩] 7 3 (by decide) (by decide)

/-- C8: the cart update operation — `increase` adds 1 to the first
matching line's quantity, `decrease` subtracts 1 and removes the line
when the result is `≤ 0`, `remove` deletes it unconditionally, and any
action on an absent product id leaves the cart unchanged. -/
theorem claim_C8_update_cart_semantics (p : Int) :
    (∀ c1 c2 : Cart, ∀ q : Int, p ∉ c1.map CartLine.product_id →
      updateCart (c1 ++ ⟨p, q⟩ :: c2) p .increase = c1 ++ ⟨p, q + 1⟩ :: c2
      ∧ updateCart (c1 ++ ⟨p, q⟩ :: c2) p .decrease =
          (if q - 1 ≤ 0 then c1 ++ c2 else c1 ++ ⟨p, q - 1⟩ :: c2)
      ∧ updateCart (c1 ++ ⟨p, q⟩ :: c2) p .remove = c1 ++ c2)
    ∧ (∀ (cart : Cart) (act : CartAction), p ∉ cart.map CartLine.product_id →
        updateCart cart p act = cart) :=
  ⟨fun c1 c2 q h =>
    ⟨updateCart_increase c1 c2 p q h, updateCart_decrease c1 c2 p q h,
     updateCart_remove c1 c2 p q h⟩,
   fun cart act h => updateCart_absent cart p act h⟩

/-- Witness for C8 at concrete inputs: in particular `decrease` at
quantity 1 removes the line, and actions on an absent id are no-ops. -/
theorem claim_C8_update_cart_semantics_witness :
    updateCart [⟨5, 2⟩] 5 .increase = [⟨5, 3⟩]
    ∧ updateCart [⟨5, 1⟩] 5 .decrease = []
    ∧ updateCart [⟨5, 2⟩] 5 .remove = []
    ∧ updateCart [⟨9, 4⟩] 5 .decrease = [⟨9, 4⟩] := by
  have h1 := ((claim_C8_update_cart_semantics 5).1 [] [] 2 (by decide)).1
  have h2 := ((claim_C8_update_cart_semantics 5).1 [] [] 1 (by decide)).2.1
  have h3 := ((claim_C8_update_cart_semantics 5).1 [] [] 2 (by decide)).2.2
  have h4 := (claim_C8_update_cart_semantics 5).2 [⟨9, 4⟩] .decrease (by decide)
  rw [if_pos (by decide)] at h2
  exact ⟨by simpa using h1, by simpa using h2, by simpa using h3, h4⟩

/-! ## Checkout pipeline lemmas -/

lemma processCheckout_invalid (db : Catalog) (now : String) (s : Session) (st : Store)
    (f : CheckoutForm)
    (h : f.name = "" ∨ f.phone = "" ∨ f.address = "" ∨ f.payment_method = "") :
    processCheckout db now s st f = ⟨.validationError, s, st⟩ := by
  simp [processCheckout, h]

lemma processCheckout_valid_empty (db : Catalog) (now : String) (s : Session) (st : Store)
    (f : CheckoutForm) (h1 : f.name ≠ "") (h2 : f.phone ≠ "") (h3 : f.address ≠ "")
    (h4 : f.payment_method ≠ "") (hc : s.cart = []) :
    processCheckout db now s st f = ⟨.emptyCartError, s, st⟩ := by
  simp [processCheckout, h1, h2, h3, h4, hc]

lemma processCheckout_success (db : Catalog) (now : String) (s : Session) (st : Store)
    (f : CheckoutForm) (h1 : f.name ≠ "") (h2 : f.phone ≠ "") (h3 : f.address ≠ "")
    (h4 : f.payment_method ≠ "") (hc : s.cart ≠ []) :
    processCheckout db now s st f =
      ⟨.confirmed,
       { s with
         cart := []
         checkout_total := some 0
         last_order_total := some (s.checkout_total.getD 0) },
       { orders := st.orders ++ [mkOrder f (s.checkout_total.getD 0)]
         order_items :=
           st.order_items ++ s.cart.filterMap (orderItemOf db (st.orders.length + 1))
         csv := st.csv ++ [mkCsvRow db now f s.cart (s.checkout_total.getD 0)] }⟩ := by
  simp [processCheckout, h1, h2, h3, h4, hc]

lemma checkout_confirmed_fields (db : Catalog) (now : String) (s : Session) (st : Store)
    (f : CheckoutForm) (hres : (processCheckout db now s st f).result = .confirmed) :
    f.name ≠ "" ∧ f.phone ≠ "" ∧ f.address ≠ "" ∧ f.payment_method ≠ "" ∧ s.cart ≠ [] := by
  by_cases hv : f.name = "" ∨ f.phone = "" ∨ f.address = "" ∨ f.payment_method = ""
  · rw [processCheckout_invalid db now s st f hv] at hres
    exact absurd hres (by simp)
  · push_neg at hv
    obtain ⟨h1, h2, h3, h4⟩ := hv
    by_cases hc : s.cart = []
    · rw [processCheckout_valid_empty db now s st f h1 h2 h3 h4 hc] at hres
      exact absurd hres (by simp)
    · exact ⟨h1, h2, h3, h4, hc⟩

lemma parseCheckoutForm_eq_of_agree (ps ps' : Params) (h : paramsAgree ps ps') :
    parseCheckoutForm ps = parseCheckoutForm ps' := by
  have hn := h "name" (by decide)
  have he := h "email" (by decide)
  have hp := h "phone" (by decide)
  have ha := h "address" (by decide)
  have hm := h "payment_method" (by decide)
  have hc := h "card_number" (by decide)
  simp [parseCheckoutForm, hn, he, hp, ha, hm, hc]

/-! ## Claims about the checkout pipeline -/

/-- C1: a checkout submitted on a session whose Review step
(`render_checkout`) last ran on the submission-time cart persists the
order with exactly the Review-step total computed from that cart and
the catalog; and the outcome depends on the POST body only through the
six fields the handler reads — a client-supplied total or per-line
price field is ignored. -/
theorem claim_C1_total_is_review_total (db : Catalog) (now : String) (s0 : Session)
    (st : Store) (ps : Params) :
    ((handleCheckoutPost db now (renderCheckout db s0) st ps).result = .confirmed →
      ∃ o : Order,
        (handleCheckoutPost db now (renderCheckout db s0) st ps).store.orders
          = st.orders ++ [o]
        ∧ o.total = cartTotal db s0.cart)
    ∧ (∀ ps' : Params, paramsAgree ps ps' →
        handleCheckoutPost db now (renderCheckout db s0) st ps
          = handleCheckoutPost db now (renderCheckout db s0) st ps') := by
  constructor
  · intro hres
    unfold handleCheckoutPost at hres ⊢
    obtain ⟨h1, h2, h3, h4, hc⟩ := checkout_confirmed_fields db now _ st _ hres
    have hcart : s0.cart ≠ [] := by
      intro h
      exact hc (by simp [renderCheckout, h])
    have hsess : renderCheckout db s0
        = { s0 with checkout_total := some (cartTotal db s0.cart) } := by
      simp [renderCheckout, hcart]
    rw [processCheckout_success db now _ st _ h1 h2 h3 h4 hc]
    refine ⟨_, rfl, ?_⟩
    rw [hsess]
    rfl
  · intro ps' hps
    unfold handleCheckoutPost
    rw [parseCheckoutForm_eq_of_agree ps ps' hps]

/-- C4: with the four required fields present and non-blank, submitting
while the session's cart is empty yields the empty-cart client error
and leaves the session and the persistent state untouched. -/
theorem claim_C4_empty_cart_rejected (db : Catalog) (now : String) (s : Session)
    (st : Store) (ps : Params)
    (h1 : (parseCheckoutForm ps).name ≠ "") (h2 : (parseCheckoutForm ps).phone ≠ "")
    (h3 : (parseCheckoutForm ps).address ≠ "")
    (h4 : (parseCheckoutForm ps).payment_method ≠ "")
    (hc : s.cart = []) :
    handleCheckoutPost db now s st ps = ⟨.emptyCartError, s, st⟩ :=
  processCheckout_valid_empty db now s st _ h1 h2 h3 h4 hc

/-- C5: a phone field blank after trimming yields the validation client
error and leaves the session (cart included) and the persistent state
(orders and CSV audit log) untouched. -/
theorem claim_C5_blank_phone_rejected (db : Catalog) (now : String) (s : Session)
    (st : Store) (ps : Params) (hphone : (parseCheckoutForm ps).phone = "") :
    handleCheckoutPost db now s st ps = ⟨.validationError, s, st⟩ :=
  processCheckout_invalid db now s st _ (Or.inr (Or.inl hphone))

/-- C6: when the trimmed payment method is `"cash"`, the persisted
order's card number column is the empty string, whatever card
reference the request supplied. -/
theorem claim_C6_cash_blanks_card (db : Catalog) (now : String) (s : Session)
    (st : Store) (ps : Params)
    (h1 : (parseCheckoutForm ps).name ≠ "") (h2 : (parseCheckoutForm ps).phone ≠ "")
    (h3 : (parseCheckoutForm ps).address ≠ "")
    (hpm : (parseCheckoutForm ps).payment_method = "cash")
    (hc : s.cart ≠ []) :
    ∃ o : Order,
      (handleCheckoutPost db now s st ps).store.orders = st.orders ++ [o]
      ∧ o.card_number = "" := by
  have h4 : (parseCheckoutForm ps).payment_method ≠ "" := by
    rw [hpm]; decide
  unfold handleCheckoutPost
  rw [processCheckout_success db now s st _ h1 h2 h3 h4 hc]
  refine ⟨_, rfl, ?_⟩
  simp [mkOrder, hpm]

/-- C9: the required-field validation runs before the empty-cart
check — with a blank required field AND an empty cart, the outcome is
the validation error, not the empty-cart error. -/
theorem claim_C9_validation_precedes_empty_cart (db : Catalog) (now : String)
    (s : Session) (st : Store) (ps : Params)
    (hblank : (parseCheckoutForm ps).name = "" ∨ (parseCheckoutForm ps).phone = ""
      ∨ (parseCheckoutForm ps).address = ""
      ∨ (parseCheckoutForm ps).payment_method = "")
    (_hc : s.cart = []) :
    (handleCheckoutPost db now s st ps).result = .validationError
    ∧ (handleCheckoutPost db now s st ps).result ≠ .emptyCartError := by
  have h := processCheckout_invalid db now s st (parseCheckoutForm ps) hblank
  unfold handleCheckoutPost
  rw [h]
  exact ⟨rfl, by simp⟩

/-- C10: a submission with valid fields and a non-empty cart on a
session where the Review step never stored a `checkout_total` succeeds
and persists the order with total 0, whatever the cart and the catalog
prices are. -/
theorem claim_C10_missing_review_total_zero (db : Catalog) (now : String)
    (s : Session) (st : Store) (ps : Params)
    (h1 : (parseCheckoutForm ps).name ≠ "") (h2 : (parseCheckoutForm ps).phone ≠ "")
    (h3 : (parseCheckoutForm ps).address ≠ "")
    (h4 : (parseCheckoutForm ps).payment_method ≠ "")
    (hc : s.cart ≠ []) (hct : s.checkout_total = none) :
    (handleCheckoutPost db now s st ps).result = .confirmed
    ∧ ∃ o : Order,
        (handleCheckoutPost db now s st ps).store.orders = st.orders ++ [o]
        ∧ o.total = 0 := by
  unfold handleCheckoutPost
  rw [processCheckout_success db now s st _ h1 h2 h3 h4 hc]
  refine ⟨rfl, _, rfl, ?_⟩
  simp [mkOrder, hct]

/-! ## Card masking -/

lemma maskCard_hides (c : String) : hidesAllButLastFour (maskCard c) = true := by
  by_cases hc : c = ""
  · subst hc
    decide
  · rw [maskCard, if_neg hc]
    unfold hidesAllButLastFour
    have hlen : c.length = c.data.length := rfl
    have hdata : (String.mk (List.replicate (c.length - 4) '*'
        ++ c.data.drop (c.length - 4))).data
        = List.replicate (c.length - 4) '*' ++ c.data.drop (c.length - 4) := rfl
    rw [hdata]
    have hk : (List.replicate (c.length - 4) '*' ++ c.data.drop (c.length - 4)).length - 4
        = c.length - 4 := by
      simp only [List.length_append, List.length_replicate, List.length_drop]
      omega
    rw [hk, List.take_left' (List.length_replicate _ _)]
    simp

/-! ## Remaining claims -/

/-- C2 fails as stated: a confirmed card order writes the raw,
unmasked 16-character card number into the CSV audit row's card
column, revealing far more than its last four characters. -/
theorem claim_C2_counterexample :
    (handleCheckoutPost dbW "2025-01-01 00:00:00" sCashTotalW stW psCardW).result
      = .confirmed
    ∧ (handleCheckoutPost dbW "2025-01-01 00:00:00" sCashTotalW stW
        psCardW).store.csv.map CsvRow.card_number = ["4539148803436467"]
    ∧ hidesAllButLastFour "4539148803436467" = false := by
  refine ⟨?_, ?_, ?_⟩ <;> decide

/-- C2 amended: for every confirmed order, the notification email
masks the card reference to at most its last four characters, and the
CSV audit row's card column is empty for non-card payment (in
particular cash) — but for card payment it holds the raw, unmasked
card reference supplied with the form. -/
theorem claim_C2_amended_card_logging (db : Catalog) (now : String) (s : Session)
    (st : Store) (ps : Params)
    (hres : (handleCheckoutPost db now s st ps).result = .confirmed) :
    ∃ r : CsvRow,
      (handleCheckoutPost db now s st ps).store.csv = st.csv ++ [r]
      ∧ r.card_number =
          (if (parseCheckoutForm ps).payment_method = "card"
           then (parseCheckoutForm ps).card_number else "")
      ∧ ((parseCheckoutForm ps).payment_method = "cash" → r.card_number = "")
      ∧ (∀ c : String, hidesAllButLastFour (maskCard c) = true) := by
  unfold handleCheckoutPost at hres ⊢
  obtain ⟨h1, h2, h3, h4, hc⟩ := checkout_confirmed_fields db now s st _ hres
  rw [processCheckout_success db now s st _ h1 h2 h3 h4 hc]
  refine ⟨_, rfl, rfl, ?_, fun c => maskCard_hides c⟩
  intro hcash
  simp [mkCsvRow, hcash]

/-- Witness for the amended C2 at a concrete cash submission. -/
theorem claim_C2_amended_card_logging_witness :
    ∃ r : CsvRow,
      (handleCheckoutPost dbW "t" sCashTotalW stW psCashW).store.csv = stW.csv ++ [r]
      ∧ r.card_number =
          (if (parseCheckoutForm psCashW).payment_method = "card"
           then (parseCheckoutForm psCashW).card_number else "")
      ∧ ((parseCheckoutForm psCashW).payment_method = "cash" → r.card_number = "")
      ∧ (∀ c : String, hidesAllButLastFour (maskCard c) = true) :=
  claim_C2_amended_card_logging dbW "t" sCashTotalW stW psCashW (by decide)

/-- C3 fails as stated: a confirmed checkout whose single cart line
references a product id missing from the catalog persists the order
header but zero item rows — not one row per distinct cart line. -/
theorem claim_C3_counterexample :
    (handleCheckoutPost dbNoneW "t" sGhostW stW psCashW).result = .confirmed
    ∧ sGhostW.cart.length = 1
    ∧ (handleCheckoutPost dbNoneW "t" sGhostW stW psCashW).store.orders.length = 1
    ∧ (handleCheckoutPost dbNoneW "t" sGhostW stW psCashW).store.order_items.length
        = 0 := by
  refine ⟨?_, ?_, ?_, ?_⟩ <;> decide

/-- C3 amended: a successful checkout persists exactly one order
header and one item row per distinct cart line whose product resolves
in the catalog, clears the session's cart, and leaves the session's
last-order total equal to the persisted order's total. -/
theorem claim_C3_amended_success_effects (db : Catalog) (now : String) (s : Session)
    (st : Store) (ps : Params)
    (hres : (handleCheckoutPost db now s st ps).result = .confirmed) :
    ∃ o : Order,
      (handleCheckoutPost db now s st ps).store.orders = st.orders ++ [o]
      ∧ (handleCheckoutPost db now s st ps).store.order_items
          = st.order_items ++ s.cart.filterMap (orderItemOf db (st.orders.length + 1))
      ∧ (handleCheckoutPost db now s st ps).store.order_items.length
          = st.order_items.length
            + (s.cart.filter (fun l => (db l.product_id).isSome)).length
      ∧ (handleCheckoutPost db now s st ps).session.cart = []
      ∧ (handleCheckoutPost db now s st ps).session.last_order_total = some o.total := by
  unfold handleCheckoutPost at hres ⊢
  obtain ⟨h1, h2, h3, h4, hc⟩ := checkout_confirmed_fields db now s st _ hres
  rw [processCheckout_success db now s st _ h1 h2 h3 h4 hc]
  refine ⟨_, rfl, rfl, ?_, rfl, rfl⟩
  simp only [List.length_append]
  congr 1
  induction s.cart with
  | nil => rfl
  | cons a l ih =>
    cases h : db a.product_id <;>
      simp [List.filterMap_cons, orderItemOf, h, List.filter_cons, ih]

/-- Witness for the amended C3: two pizzas bought for cash. -/
theorem claim_C3_amended_success_effects_witness :
    ∃ o : Order,
      (handleCheckoutPost dbW "t" sCashTotalW stW psCashW).store.orders
        = stW.orders ++ [o]
      ∧ (handleCheckoutPost dbW "t" sCashTotalW stW psCashW).store.order_items
          = stW.order_items
            ++ sCashTotalW.cart.filterMap (orderItemOf dbW (stW.orders.length + 1))
      ∧ (handleCheckoutPost dbW "t" sCashTotalW stW psCashW).store.order_items.length
          = stW.order_items.length
            + (sCashTotalW.cart.filter (fun l => (dbW l.product_id).isSome)).length
      ∧ (handleCheckoutPost dbW "t" sCashTotalW stW psCashW).session.cart = []
      ∧ (handleCheckoutPost dbW "t" sCashTotalW stW psCashW).session.last_order_total
          = some o.total :=
  claim_C3_amended_success_effects dbW "t" sCashTotalW stW psCashW (by decide)

/-- Witness for C1: a review of two 15 TND pizzas followed by a cash
submission persists total 30, and appending a client-supplied
`total=0.01` parameter changes nothing about the outcome. -/
theorem claim_C1_total_is_review_total_witness :
    (∃ o : Order,
      (handleCheckoutPost dbW "t" (renderCheckout dbW sNoTotalW) stW psCashW).store.orders
        = stW.orders ++ [o]
      ∧ o.total = cartTotal dbW sNoTotalW.cart)
    ∧ handleCheckoutPost dbW "t" (renderCheckout dbW sNoTotalW) stW psCashW
        = handleCheckoutPost dbW "t" (renderCheckout dbW sNoTotalW) stW
            (psCashW ++ [("total", "0.01")]) :=
  ⟨(claim_C1_total_is_review_total dbW "t" sNoTotalW stW psCashW).1 (by decide),
   (claim_C1_total_is_review_total dbW "t" sNoTotalW stW psCashW).2
     (psCashW ++ [("total", "0.01")]) (by decide)⟩

/-- Witness for C4: a valid cash form submitted on an empty cart. -/
theorem claim_C4_empty_cart_rejected_witness :
    handleCheckoutPost dbW "t" sEmptyW stW psCashW = ⟨.emptyCartError, sEmptyW, stW⟩ :=
  claim_C4_empty_cart_rejected dbW "t" sEmptyW stW psCashW
    (by decide) (by decide) (by decide) (by decide) rfl

/-- Witness for C5: a submission whose phone is whitespace only. -/
theorem claim_C5_blank_phone_rejected_witness :
    handleCheckoutPost dbW "t" sCashTotalW stW psBlankPhoneW
      = ⟨.validationError, sCashTotalW, stW⟩ :=
  claim_C5_blank_phone_rejected dbW "t" sCashTotalW stW psBlankPhoneW (by decide)

/-- Witness for C6: a cash submission carrying a non-empty card number
still persists an empty card column. -/
theorem claim_C6_cash_blanks_card_witness :
    ∃ o : Order,
      (handleCheckoutPost dbW "t" sCashTotalW stW psCashW).store.orders
        = stW.orders ++ [o]
      ∧ o.card_number = "" :=
  claim_C6_cash_blanks_card dbW "t" sCashTotalW stW psCashW
    (by decide) (by decide) (by decide) (by decide) (by decide)

/-- Witness for C9: blank phone and empty cart together give the
validation error, not the empty-cart error. -/
theorem claim_C9_validation_precedes_empty_cart_witness :
    (handleCheckoutPost dbW "t" sEmptyW stW psBlankPhoneW).result = .validationError
    ∧ (handleCheckoutPost dbW "t" sEmptyW stW psBlankPhoneW).result
        ≠ .emptyCartError :=
  claim_C9_validation_precedes_empty_cart dbW "t" sEmptyW stW psBlankPhoneW
    (by decide) rfl

/-- Witness for C10: two 15 TND pizzas in the cart, but no Review step
ever ran — the confirmed order's total is 0. -/
theorem claim_C10_missing_review_total_zero_witness :
    (handleCheckoutPost dbW "t" sNoTotalW stW psCashW).result = .confirmed
    ∧ ∃ o : Order,
        (handleCheckoutPost dbW "t" sNoTotalW stW psCashW).store.orders
          = stW.orders ++ [o]
        ∧ o.total = 0 :=
  claim_C10_missing_review_total_zero dbW "t" sNoTotalW stW psCashW
    (by decide) (by decide) (by decide) (by decide) (by decide) rfl

end Theelja
